import Mathlib

/- Verification of the utility layer of SimpleDisNet (src/utils.py):
   the storage-path allocator `create_storage_folder`, the segmentation
   renderer `plot_segmentation_images`, the results aggregator
   `compute_and_store_final_results`, and the dataloader factory `dataset`.

   The Python code is shallowly embedded: the filesystem is a list of
   existing path strings, `os.path.join` is modelled for the ordinary
   case (neither an absolute second argument nor a trailing separator;
   no modelled claim exercises those corners, and `os.makedirs` is
   modelled as inserting the given path, leaving implicit the ancestor
   directories it also creates, which no modelled code path consults),
   Python floats are rationals, and Python exceptions are `Except` /
   an explicit error field threaded through the state. -/

namespace SimpleDisNet

/- Python-level error conditions that the embedded code can signal. -/
inductive PyErr where
  | indexError
  | nameError
  | assertionError
  | ioError
  deriving DecidableEq, Repr

/- `os.path.join(a, b)` in the ordinary case. -/
def osPathJoin (a b : String) : String := a ++ "/" ++ b

/- Section: decimal rendering.  `str(counter)` in Python is `Nat.repr`
   in the embedding; the iterate-mode probe loop of
   `create_storage_folder` terminates because distinct counters render
   to distinct strings, so we prove `Nat.repr` injective by reading the
   decimal value back off the character list that `Nat.toDigitsCore`
   produces. -/

/- The numeric value of a decimal digit character. -/
def charVal (c : Char) : Nat := c.toNat - 48

/- The value of a run of decimal digit characters, most significant first. -/
def digitsVal (ds : List Char) : Nat :=
  ds.foldl (fun a c => a * 10 + charVal c) 0

/- Section: the storage path allocator, `create_storage_folder`
   (src/utils.py lines 92-108).  The filesystem is the list of existing
   paths; `os.path.exists` is membership and `os.makedirs` inserts the
   path (with `exist_ok=True`: idempotently; without: erroring when the
   path exists). -/

/- `os.makedirs(p, exist_ok=True)`. -/
def makedirs (fs : List String) (p : String) : List String :=
  if p ∈ fs then fs else p :: fs

/- `os.makedirs(p)` without `exist_ok`: raises if `p` already exists. -/
def makedirsExn (fs : List String) (p : String) : Except PyErr (List String) :=
  if p ∈ fs then .error .ioError else .ok (p :: fs)

/- `os.path.join(project_path, group_folder + "_" + str(i))`: the path
   probed by the iterate-mode while loop at counter `i`. -/
def probePath (project_path group_folder : String) (i : Nat) : String :=
  osPathJoin project_path (group_folder ++ "_" ++ Nat.repr i)

/- The `while os.path.exists(save_path)` loop of iterate mode, entered
   after the initial candidate was found to exist: probes counters
   `c, c+1, ...` and stops at the first free path.  The Python loop has
   no fuel; the embedding runs it with fuel `fs.length + 1`, which
   `probeLoop_finds` shows is never exhausted. -/
def probeLoop (fs : List String) (project_path group_folder : String) :
    Nat → Nat → Option String
  | 0, _ => none
  | fuel + 1, c =>
    let p := probePath project_path group_folder c
    if p ∈ fs then probeLoop fs project_path group_folder fuel (c + 1)
    else some p

/- `create_storage_folder(main_folder_path, project_folder, group_folder,
   run_name, mode)`: returns the final `save_path` together with the
   filesystem after the call. -/
def create_storage_folder (fs : List String)
    (main_folder_path project_folder group_folder run_name mode : String) :
    Except PyErr (String × List String) :=
  let fs1 := makedirs fs main_folder_path
  let project_path := osPathJoin main_folder_path project_folder
  let fs2 := makedirs fs1 project_path
  let save_path := osPathJoin (osPathJoin project_path group_folder) run_name
  if mode = "iterate" then
    if save_path ∈ fs2 then
      match probeLoop fs2 project_path group_folder (fs2.length + 1) 0 with
      | some p => do
        let fs3 ← makedirsExn fs2 p
        .ok (p, fs3)
      | none => .error .ioError
    else do
      let fs3 ← makedirsExn fs2 save_path
      .ok (save_path, fs3)
  else if mode = "overwrite" then
    .ok (save_path, makedirs fs2 save_path)
  else
    .ok (save_path, fs2)

/- The filesystem right after the two unconditional `os.makedirs` calls
   at the top of `create_storage_folder`. -/
def fsAfterSetup (fs : List String) (main_folder_path project_folder : String) :
    List String :=
  makedirs (makedirs fs main_folder_path) (osPathJoin main_folder_path project_folder)

/- The initial candidate `os.path.join(project_path, group_folder, run_name)`. -/
def candidatePath (main_folder_path project_folder group_folder run_name : String) :
    String :=
  osPathJoin (osPathJoin (osPathJoin main_folder_path project_folder) group_folder)
    run_name

/- Section: the segmentation renderer, `plot_segmentation_images`
   (src/utils.py lines 30-89).  Pixel data is irrelevant to every claim,
   so images, masks and segmentation maps are not represented; what is
   modelled is the observable control flow: which files are opened,
   which figures are written, where the call stops.  Loading a file is
   modelled by oracles `imageOk` / `maskOk` saying whether `PIL.Image.open`
   succeeds on a path; the caller-supplied transforms (identity by
   default) are modelled as succeeding. -/

/- Observable outcome of a `plot_segmentation_images` call: whether the
   output folder got created, the figure files written (in order), the
   ground-truth mask files opened (in order), and the exception that
   ended the call, if any. -/
structure RenderResult where
  dirCreated : Bool
  written : List String
  maskLoads : List String
  err : Option PyErr
  deriving DecidableEq, Repr

/- `s.split("/")`: Python str.split with a one-character separator,
   written on the character list by structural recursion so that it
   evaluates under kernel reduction (`String.splitOn` is defined by
   well-founded recursion and does not). -/
def splitChars (sep : Char) : List Char → List (List Char)
  | [] => [[]]
  | c :: cs =>
    match splitChars sep cs with
    | [] => [[]]
    | g :: gs => if c = sep then [] :: g :: gs else (c :: g) :: gs

def pySplitSlash (s : String) : List String :=
  (splitChars '/' s.data).map List.asString

/- `savename = "_".join(image_path.split("/")[-save_depth:])` placed
   under the save folder.  Python's `l[-d:]` is the whole list when
   `d = 0`. -/
def savenameOf (savefolder : String) (save_depth : Nat) (image_path : String) :
    String :=
  let parts := pySplitSlash image_path
  let kept := if save_depth = 0 then parts else parts.drop (parts.length - save_depth)
  osPathJoin savefolder (String.intercalate "_" kept)

/- The `for image_path, mask_path, anomaly_score, segmentation in zip(...)`
   loop body, per sample and in source order: open the image (errors on
   an unreadable file); when masks were detected as provided, open the
   mask when the per-sample path is not None (errors on an unreadable
   file) or substitute zeros when it is; then draw.  `axes[1]` reads the
   local variable `mask`, which was never assigned when masks were not
   provided: that is a NameError.  With three panels the figure is saved
   under the computed savename and the loop continues. -/
def renderLoop (imageOk maskOk : String → Bool) (savefolder : String)
    (save_depth : Nat) (masks_provided : Bool) :
    List (String × Option String) → List String → List String →
    List String × List String × Option PyErr
  | [], written, maskLoads => (written, maskLoads, none)
  | (image_path, mask_path) :: rest, written, maskLoads =>
    if imageOk image_path then
      if masks_provided then
        match mask_path with
        | some mp =>
          if maskOk mp then
            renderLoop imageOk maskOk savefolder save_depth masks_provided rest
              (written ++ [savenameOf savefolder save_depth image_path])
              (maskLoads ++ [mp])
          else (written, maskLoads ++ [mp], some .ioError)
        | none =>
          renderLoop imageOk maskOk savefolder save_depth masks_provided rest
            (written ++ [savenameOf savefolder save_depth image_path]) maskLoads
      else (written, maskLoads, some .nameError)
    else (written, maskLoads, some .ioError)

/- `plot_segmentation_images(savefolder, image_paths, segmentations,
   anomaly_scores, mask_paths, ..., save_depth)`.  A caller-supplied
   mask path entry is `none` for Python None; a missing `mask_paths`
   argument is `Option.none` outside and is replaced by the `"-1"`
   sentinel list; `masks_provided` compares the first entry against the
   sentinel (IndexError on an empty list, before the output folder is
   created).  Scores and segmentations only contribute their lengths
   (via `zip` truncation), so they are erased to `Unit` before zipping. -/
def plot_segmentation_images {α β : Type} (imageOk maskOk : String → Bool)
    (savefolder : String) (image_paths : List String) (segmentations : List α)
    (anomaly_scores : Option (List β)) (mask_paths : Option (List (Option String)))
    (save_depth : Nat) : RenderResult :=
  let mask_paths' : List (Option String) :=
    match mask_paths with
    | none => image_paths.map fun _ => some "-1"
    | some l => l
  match mask_paths'.head? with
  | none => ⟨false, [], [], some .indexError⟩
  | some mp0 =>
    let masks_provided : Bool := mp0 != some "-1"
    let anomaly_scores' : List Unit :=
      match anomaly_scores with
      | none => image_paths.map fun _ => ()
      | some l => l.map fun _ => ()
    let samples :=
      ((image_paths.zip mask_paths').zip
        (anomaly_scores'.zip (segmentations.map fun _ => ()))).map Prod.fst
    let r := renderLoop imageOk maskOk savefolder save_depth masks_provided
      samples [] []
    ⟨true, r.1, r.2.1, r.2.2⟩

/- Section: the results aggregator, `compute_and_store_final_results`
   (src/utils.py lines 142-190).  Floats are rationals; the CSV file is
   the list of its rows. -/

/- A CSV cell: a name or a metric value. -/
inductive Cell where
  | str (s : String)
  | num (q : ℚ)
  deriving DecidableEq, Repr

/- `np.mean` of a list (rational arithmetic; the empty-input NaN case is
   outside every claim, which assume at least one row). -/
def npMean (l : List ℚ) : ℚ := l.sum / l.length

/- `[x[i] for x in results]`: list indexing raises IndexError when some
   row is shorter than `i + 1`. -/
def colVals (results : List (List ℚ)) (i : Nat) : Except PyErr (List ℚ) :=
  results.mapM fun x =>
    match x.get? i with
    | some v => Except.ok v
    | none => Except.error PyErr.indexError

/- Python dict insertion: overwrite in place when the key is present,
   otherwise append; insertion order is preserved. -/
def dictInsert (d : List (String × ℚ)) (k : String) (v : ℚ) :
    List (String × ℚ) :=
  if (d.map Prod.fst).contains k then
    d.map fun p => if p.1 = k then (k, v) else p
  else d ++ [(k, v)]

/- The `for i, result_key in enumerate(column_names)` loop that fills
   `mean_metrics`. -/
def meansLoop (results : List (List ℚ)) :
    List String → Nat → List (String × ℚ) → Except PyErr (List (String × ℚ))
  | [], _, acc => .ok acc
  | key :: keys, i, acc => do
    let vals ← colVals results i
    meansLoop results keys (i + 1) (dictInsert acc key (npMean vals))

/- The default `column_names` argument. -/
def defaultColumnNames : List String :=
  ["Instance AUROC", "Full Pixel AUROC", "Full PRO",
   "Anomaly Pixel AUROC", "Anomaly PRO"]

/- `compute_and_store_final_results(results_path, results, row_names,
   column_names)`: returns the rows of `results.csv` (header, one row
   per input row, trailing mean row) paired with the returned
   `mean_metrics` mapping.  An `.error` models an exception raised
   before the CSV file is opened: both the row-name length assert and
   the mean computation precede the `open`, so an error means no file
   was written. -/
def compute_and_store_final_results (results : List (List ℚ))
    (row_names : Option (List String)) (column_names : List String) :
    Except PyErr (List (List Cell) × List (String × ℚ)) := do
  match row_names with
  | some rn =>
    if rn.length = results.length then pure () else Except.error PyErr.assertionError
  | none => pure ()
  let mm ← meansLoop results column_names 0 []
  let header : List Cell :=
    match row_names with
    | some _ => Cell.str "Row Names" :: column_names.map Cell.str
    | none => column_names.map Cell.str
  let dataRows : List (List Cell) :=
    results.enum.map fun p =>
      match row_names with
      | some rn => Cell.str ((rn.get? p.1).getD "") :: p.2.map Cell.num
      | none => p.2.map Cell.num
  let meanRow : List Cell :=
    match row_names with
    | some _ => Cell.str "Mean" :: mm.map fun p => Cell.num p.2
    | none => mm.map fun p => Cell.num p.2
  .ok (header :: dataRows ++ [meanRow], mm.map fun p => ("mean_" ++ p.1, p.2))

/- Section: the dataloader factory, `dataset` (src/utils.py lines
   192-249).  `MVTecDataset` and `torch.utils.data.DataLoader` are
   external collaborators; they are recorded as the constructor
   arguments the factory passes.  Each `MVTecDataset(...)` call in
   Python allocates a fresh object, modelled by an allocation index
   `objId` threaded through the loop: equal indices would mean the same
   object. -/

inductive DatasetSplit where
  | TRAIN
  | TEST
  deriving DecidableEq, Repr

structure MVTecDataset where
  objId : Nat
  source : String
  classname : String
  split : DatasetSplit
  resize : Nat
  imagesize : Option Nat
  augment : Option Bool
  train_val_split : ℚ
  deriving DecidableEq, Repr

structure DataLoader where
  dataset : MVTecDataset
  batch_size : Nat
  shuffle : Bool
  num_workers : Nat
  prefetch_factor : Nat
  pin_memory : Bool
  name : Option String
  deriving DecidableEq, Repr

structure DataloaderBundle where
  train : DataLoader
  test : DataLoader
  deriving DecidableEq, Repr

/- One iteration of the `for subdataset in subdatasets` loop: the TRAIN
   dataset is allocated first (`objBase`), then the TEST dataset
   (`objBase + 1`); the train loader is shuffled and tagged
   `name + "_" + subdataset`, the test loader is unshuffled and
   untagged. -/
def mkBundle (name data_path : String) (train_val_split : ℚ)
    (batch_size resize image_size num_workers : Nat) (augment : Bool)
    (objBase : Nat) (subdataset : String) : DataloaderBundle :=
  let train_dataset : MVTecDataset :=
    ⟨objBase, data_path, subdataset, .TRAIN, resize, none, some augment,
      train_val_split⟩
  let test_dataset : MVTecDataset :=
    ⟨objBase + 1, data_path, subdataset, .TEST, resize, some image_size, none,
      train_val_split⟩
  let train_loader : DataLoader :=
    ⟨train_dataset, batch_size, true, num_workers, 2, true,
      some (name ++ "_" ++ subdataset)⟩
  let test_loader : DataLoader :=
    ⟨test_dataset, batch_size, false, num_workers, 2, true, none⟩
  ⟨train_loader, test_loader⟩

/- The `get_dataloaders` loop over the subdataset list. -/
def buildBundles (name data_path : String) (train_val_split : ℚ)
    (batch_size resize image_size num_workers : Nat) (augment : Bool) :
    List String → Nat → List DataloaderBundle
  | [], _ => []
  | sub :: rest, objBase =>
    mkBundle name data_path train_val_split batch_size resize image_size
        num_workers augment objBase sub ::
      buildBundles name data_path train_val_split batch_size resize image_size
        num_workers augment rest (objBase + 2)

/- `dataset(...)`: the factory returns the pair
   `("get_dataloaders", get_dataloaders)`; invoking the closure builds
   the bundle list. -/
def dataset (name data_path : String) (subdatasets : List String)
    (train_val_split : ℚ) (batch_size resize image_size num_workers : Nat)
    (augment : Bool) : String × (Unit → List DataloaderBundle) :=
  ("get_dataloaders", fun _ =>
    buildBundles name data_path train_val_split batch_size resize image_size
      num_workers augment subdatasets 0)

theorem charVal_digitChar {m : Nat} (hm : m < 10) :
    charVal (Nat.digitChar m) = m := by
  interval_cases m <;> rfl

theorem digitsVal_append_singleton (ds : List Char) (c : Char) :
    digitsVal (ds ++ [c]) = digitsVal ds * 10 + charVal c := by
  simp [digitsVal, List.foldl_append]

theorem toDigitsCore_val : ∀ (fuel n : Nat) (acc : List Char), n < fuel →
    ∃ ds, ds ++ acc = Nat.toDigitsCore 10 fuel n acc ∧ digitsVal ds = n := by
  intro fuel
  induction fuel with
  | zero => intro n acc h; exact absurd h (Nat.not_lt_zero n)
  | succ f ih =>
    intro n acc hn
    by_cases h10 : n / 10 = 0
    · refine ⟨[Nat.digitChar (n % 10)], ?_, ?_⟩
      · simp [Nat.toDigitsCore, h10]
      · have hlt : n < 10 := by omega
        have hmn : n % 10 = n := Nat.mod_eq_of_lt hlt
        simp [digitsVal, hmn, charVal_digitChar (hmn ▸ Nat.mod_lt n (by omega))]
    · have hdiv : n / 10 < f := by omega
      obtain ⟨run, hrun, hv⟩ := ih (n / 10) (Nat.digitChar (n % 10) :: acc) hdiv
      refine ⟨run ++ [Nat.digitChar (n % 10)], ?_, ?_⟩
      · rw [List.append_assoc,
          show [Nat.digitChar (n % 10)] ++ acc = Nat.digitChar (n % 10) :: acc
            from rfl, hrun]
        simp [Nat.toDigitsCore, h10]
      · rw [digitsVal_append_singleton, hv,
          charVal_digitChar (Nat.mod_lt n (by omega))]
        omega

theorem repr_injective : Function.Injective Nat.repr := by
  intro m n h
  obtain ⟨dm, hdm, hvm⟩ := toDigitsCore_val (m + 1) m [] (Nat.lt_succ_self m)
  obtain ⟨dn, hdn, hvn⟩ := toDigitsCore_val (n + 1) n [] (Nat.lt_succ_self n)
  have hm : Nat.repr m = dm.asString := by
    simp [Nat.repr, Nat.toDigits, ← hdm]
  have hn : Nat.repr n = dn.asString := by
    simp [Nat.repr, Nat.toDigits, ← hdn]
  rw [hm, hn] at h
  have hdata : dm = dn := congrArg String.data h
  rw [← hvm, ← hvn, hdata]

theorem string_append_left_cancel {s a b : String} (h : s ++ a = s ++ b) :
    a = b := by
  have hd : s.data ++ a.data = s.data ++ b.data := by
    have := congrArg String.data h
    simpa [String.data_append] using this
  exact String.ext (List.append_cancel_left hd)

theorem probePath_injective (pp g : String) :
    Function.Injective (probePath pp g) := by
  intro i j h
  unfold probePath osPathJoin at h
  have h1 := string_append_left_cancel (s := pp ++ "/") h
  have h2 := string_append_left_cancel (s := g ++ "_") h1
  exact repr_injective h2

theorem mem_makedirs_of_mem {fs : List String} {p q : String} (h : q ∈ fs) :
    q ∈ makedirs fs p := by
  unfold makedirs
  split <;> simp [h]

theorem self_mem_makedirs (fs : List String) (p : String) : p ∈ makedirs fs p := by
  unfold makedirs
  split <;> simp_all

/- The probe loop returns the first free probe path: if `j` is the least
   counter at or above `c` whose probe path is absent and the fuel
   reaches it, the loop stops exactly there. -/
theorem probeLoop_eq_of_least (fs : List String) (pp g : String) :
    ∀ (fuel c j : Nat), c ≤ j → j < c + fuel →
    probePath pp g j ∉ fs →
    (∀ i, c ≤ i → i < j → probePath pp g i ∈ fs) →
    probeLoop fs pp g fuel c = some (probePath pp g j) := by
  intro fuel
  induction fuel with
  | zero => intro c j hcj hj _ _; omega
  | succ fuel ih =>
    intro c j hcj hj hfree hbusy
    by_cases hc : probePath pp g c ∈ fs
    · have hne : c ≠ j := by
        intro heq
        exact hfree (heq ▸ hc)
      have hcj' : c + 1 ≤ j := by omega
      have := ih (c + 1) j hcj' (by omega) hfree
        (fun i h1 h2 => hbusy i (by omega) h2)
      simp [probeLoop, hc, this]
    · have hcj' : c = j := by
        by_contra hne
        exact hc (hbusy c le_rfl (by omega))
      subst hcj'
      simp [probeLoop, hc]

/- Anything the probe loop returns is a free path of probe shape. -/
theorem probeLoop_spec (fs : List String) (pp g : String) :
    ∀ (fuel c : Nat) (p : String), probeLoop fs pp g fuel c = some p →
    p ∉ fs ∧ ∃ j, p = probePath pp g j := by
  intro fuel
  induction fuel with
  | zero => intro c p h; simp [probeLoop] at h
  | succ fuel ih =>
    intro c p h
    by_cases hc : probePath pp g c ∈ fs
    · simp only [probeLoop, hc, if_pos] at h
      exact ih (c + 1) p h
    · simp only [probeLoop, hc, if_neg, not_false_iff, Option.some.injEq] at h
      exact ⟨h ▸ hc, c, h.symm⟩

/- If every probe path below `j` exists, those `j` distinct paths
   pigeonhole into the filesystem, so `j` is at most `fs.length`. -/
theorem least_free_le_length (fs : List String) (pp g : String) (j : Nat)
    (hbusy : ∀ i, i < j → probePath pp g i ∈ fs) : j ≤ fs.length := by
  have hsub : (List.range j).map (probePath pp g) ⊆ fs := by
    intro x hx
    rw [List.mem_map] at hx
    obtain ⟨i, hi, rfl⟩ := hx
    exact hbusy i (List.mem_range.mp hi)
  have hnd : ((List.range j).map (probePath pp g)).Nodup :=
    (List.nodup_range j).map fun a b h => probePath_injective pp g h
  have := (hnd.subperm hsub).length_le
  simpa using this

/- The three modes of `create_storage_folder`, reduced. -/
theorem create_iterate_eq (fs : List String) (root project group run : String) :
    create_storage_folder fs root project group run "iterate" =
      (if candidatePath root project group run ∈ fsAfterSetup fs root project then
        match probeLoop (fsAfterSetup fs root project) (osPathJoin root project)
            group ((fsAfterSetup fs root project).length + 1) 0 with
        | some p =>
          (makedirsExn (fsAfterSetup fs root project) p).bind fun f => .ok (p, f)
        | none => .error .ioError
      else
        (makedirsExn (fsAfterSetup fs root project)
            (candidatePath root project group run)).bind
          fun f => .ok (candidatePath root project group run, f)) := rfl

theorem create_overwrite_eq (fs : List String) (root project group run : String) :
    create_storage_folder fs root project group run "overwrite" =
      .ok (candidatePath root project group run,
        makedirs (fsAfterSetup fs root project)
          (candidatePath root project group run)) := rfl

theorem create_other_eq (fs : List String) (root project group run mode : String)
    (h1 : mode ≠ "iterate") (h2 : mode ≠ "overwrite") :
    create_storage_folder fs root project group run mode =
      .ok (candidatePath root project group run, fsAfterSetup fs root project) := by
  unfold create_storage_folder
  rw [if_neg h1, if_neg h2]
  rfl

/- Iterate mode: what it returns was not an existing path when probed,
   is created by the call, and the call only adds paths. -/
theorem create_iterate_spec (fs : List String)
    (root project group run : String) (p : String) (fs' : List String)
    (h : create_storage_folder fs root project group run "iterate" =
      .ok (p, fs')) :
    p ∉ fsAfterSetup fs root project ∧ p ∈ fs' ∧
      ∀ q ∈ fsAfterSetup fs root project, q ∈ fs' := by
  rw [create_iterate_eq] at h
  set fs2 := fsAfterSetup fs root project with hfs2
  by_cases hcand : candidatePath root project group run ∈ fs2
  · rw [if_pos hcand] at h
    cases hp : probeLoop fs2 (osPathJoin root project) group (fs2.length + 1) 0 with
    | none => rw [hp] at h; exact absurd h (by simp)
    | some q =>
      rw [hp] at h
      obtain ⟨hqf, _⟩ := probeLoop_spec fs2 (osPathJoin root project) group _ 0 q hp
      simp only [makedirsExn, if_neg hqf, Except.bind, Except.ok.injEq,
        Prod.mk.injEq] at h
      obtain ⟨rfl, rfl⟩ := h
      exact ⟨hqf, by simp, fun r hr => by simp [hr]⟩
  · rw [if_neg hcand] at h
    simp only [makedirsExn, if_neg hcand, Except.bind, Except.ok.injEq,
      Prod.mk.injEq] at h
    obtain ⟨rfl, rfl⟩ := h
    exact ⟨hcand, by simp, fun r hr => by simp [hr]⟩

/-- C4: in iterate mode, when the candidate `root/project/group/run_name`
already exists, `create_storage_folder` probes `root/project/group_0`,
`group_1`, ... in increasing counter order, creates the first absent one
and returns it: if every probe path below `j` exists and the probe path
at `j` does not, the call returns exactly `probePath j` (whose leaf is
`group ++ "_" ++ j`, not `run_name`) and adds it to the filesystem. -/
theorem c4_iterate_probe_first_free (fs : List String)
    (root project group run : String) (j : Nat)
    (hcand : candidatePath root project group run ∈ fsAfterSetup fs root project)
    (hfree : probePath (osPathJoin root project) group j ∉
      fsAfterSetup fs root project)
    (hbusy : ∀ i, i < j →
      probePath (osPathJoin root project) group i ∈ fsAfterSetup fs root project) :
    create_storage_folder fs root project group run "iterate" =
      .ok (probePath (osPathJoin root project) group j,
        probePath (osPathJoin root project) group j ::
          fsAfterSetup fs root project) := by
  have hj : j ≤ (fsAfterSetup fs root project).length :=
    least_free_le_length _ _ _ j hbusy
  have hloop := probeLoop_eq_of_least (fsAfterSetup fs root project)
    (osPathJoin root project) group ((fsAfterSetup fs root project).length + 1)
    0 j (Nat.zero_le j) (by omega) hfree (fun i _ h2 => hbusy i h2)
  rw [create_iterate_eq, if_pos hcand, hloop]
  simp [makedirsExn, hfree, Except.bind]

/-- C4 witness: the spec scenario — `/tmp/proj/run1/exp` already exists,
so the call returns `/tmp/proj/run1_0`. -/
theorem c4_iterate_probe_first_free_witness :
    (candidatePath "/tmp" "proj" "run1" "exp" ∈
      fsAfterSetup ["/tmp/proj/run1/exp"] "/tmp" "proj") ∧
    (probePath (osPathJoin "/tmp" "proj") "run1" 0 ∉
      fsAfterSetup ["/tmp/proj/run1/exp"] "/tmp" "proj") ∧
    create_storage_folder ["/tmp/proj/run1/exp"] "/tmp" "proj" "run1" "exp"
        "iterate" =
      .ok (probePath (osPathJoin "/tmp" "proj") "run1" 0,
        probePath (osPathJoin "/tmp" "proj") "run1" 0 ::
          fsAfterSetup ["/tmp/proj/run1/exp"] "/tmp" "proj") :=
  ⟨by decide, by decide,
    c4_iterate_probe_first_free ["/tmp/proj/run1/exp"] "/tmp" "proj" "run1" "exp"
      0 (by decide) (by decide) (fun i hi => absurd hi (Nat.not_lt_zero i))⟩

/-- C5 counterexample: with the unknown mode `"banana"`,
`create_storage_folder` does not fail — it returns normally with the
candidate path (which it did not create). -/
theorem c5_unknown_mode_counterexample :
    create_storage_folder [] "root" "proj" "grp" "run" "banana" =
      .ok ("root/proj/grp/run", ["root/proj", "root"]) := by rfl

/-- C5 amended: for every mode other than `"iterate"` and `"overwrite"`,
`create_storage_folder` raises no error: it returns the candidate path
`root/project/group/run_name` normally without creating it (only the
root and project directories have been created). -/
theorem c5_unknown_mode_returns_normally (fs : List String)
    (root project group run mode : String)
    (h1 : mode ≠ "iterate") (h2 : mode ≠ "overwrite") :
    create_storage_folder fs root project group run mode =
      .ok (candidatePath root project group run, fsAfterSetup fs root project) :=
  create_other_eq fs root project group run mode h1 h2

/-- C5 amended witness. -/
theorem c5_unknown_mode_returns_normally_witness :
    ("banana" : String) ≠ "iterate" ∧ ("banana" : String) ≠ "overwrite" ∧
    create_storage_folder ["d"] "root" "proj" "grp" "run" "banana" =
      .ok (candidatePath "root" "proj" "grp" "run",
        fsAfterSetup ["d"] "root" "proj") :=
  ⟨by decide, by decide,
    c5_unknown_mode_returns_normally ["d"] "root" "proj" "grp" "run" "banana"
      (by decide) (by decide)⟩

/-- C8: calling `create_storage_folder` twice with identical arguments,
the second call running on the filesystem the first call left behind:
in iterate mode the two returned paths always differ (the first call
created its path, so the second call's probe skips it); in overwrite
mode the two returned paths are always equal (both are the candidate). -/
theorem c8_two_calls (fs : List String) (root project group run : String)
    (p1 p2 : String) (fs1 fs2 : List String) :
    (create_storage_folder fs root project group run "iterate" = .ok (p1, fs1) →
      create_storage_folder fs1 root project group run "iterate" = .ok (p2, fs2) →
      p1 ≠ p2) ∧
    (create_storage_folder fs root project group run "overwrite" = .ok (p1, fs1) →
      create_storage_folder fs1 root project group run "overwrite" = .ok (p2, fs2) →
      p1 = p2) := by
  constructor
  · intro h1 h2
    obtain ⟨_, hin1, _⟩ := create_iterate_spec fs root project group run p1 fs1 h1
    obtain ⟨hn2, _, _⟩ := create_iterate_spec fs1 root project group run p2 fs2 h2
    intro heq
    apply hn2
    rw [← heq]
    exact mem_makedirs_of_mem (mem_makedirs_of_mem hin1)
  · intro h1 h2
    rw [create_overwrite_eq] at h1 h2
    injection h1 with h1'
    injection h2 with h2'
    exact (congrArg Prod.fst h1').symm.trans (congrArg Prod.fst h2')

/-- C8 witness: both halves exercised on a concrete filesystem. -/
theorem c8_two_calls_witness :
    ((create_storage_folder [] "r" "p" "g" "n" "iterate" =
        .ok ("r/p/g/n", ["r/p/g/n", "r/p", "r"])) ∧
      (create_storage_folder ["r/p/g/n", "r/p", "r"] "r" "p" "g" "n" "iterate" =
        .ok ("r/p/g_0", ["r/p/g_0", "r/p/g/n", "r/p", "r"])) ∧
      ("r/p/g/n" : String) ≠ "r/p/g_0") ∧
    ((create_storage_folder [] "r" "p" "g" "n" "overwrite" =
        .ok ("r/p/g/n", ["r/p/g/n", "r/p", "r"])) ∧
      (create_storage_folder ["r/p/g/n", "r/p", "r"] "r" "p" "g" "n"
          "overwrite" =
        .ok ("r/p/g/n", ["r/p/g/n", "r/p", "r"])) ∧
      ("r/p/g/n" : String) = "r/p/g/n") :=
  ⟨⟨by rfl, by rfl,
    (c8_two_calls [] "r" "p" "g" "n" "r/p/g/n" "r/p/g_0"
        ["r/p/g/n", "r/p", "r"] ["r/p/g_0", "r/p/g/n", "r/p", "r"]).1
      (by rfl) (by rfl)⟩,
   ⟨by rfl, by rfl,
    (c8_two_calls [] "r" "p" "g" "n" "r/p/g/n" "r/p/g/n"
        ["r/p/g/n", "r/p", "r"] ["r/p/g/n", "r/p", "r"]).2
      (by rfl) (by rfl)⟩⟩

/-- C10: calling `plot_segmentation_images` with an empty `image_paths`
list and no `mask_paths` raises an IndexError (reading `mask_paths[0]`
of the empty substituted sentinel list) before any side effect: the
output folder is not created and no file is written. -/
theorem c10_empty_input_index_error {α β : Type} (imageOk maskOk : String → Bool)
    (savefolder : String) (segmentations : List α)
    (anomaly_scores : Option (List β)) (save_depth : Nat) :
    plot_segmentation_images imageOk maskOk savefolder [] segmentations
      anomaly_scores none save_depth =
      ⟨false, [], [], some .indexError⟩ := rfl

/-- C3: the failing input for the maskless path of the renderer — one
readable image without masks.  The loop body reads the local variable
`mask`, which is never assigned when masks are not provided, so the call
dies with a NameError after creating the output folder and before
writing any figure: the claimed one 2-panel figure per sample is never
produced. -/
theorem c3_no_mask_name_error_eval :
    plot_segmentation_images (fun _ => true) (fun _ => true) "out"
      ["a/b/c/d.png"] [()] (none : Option (List Unit)) none 4 =
      ⟨true, [], [], some .nameError⟩ := rfl

theorem renderLoop_no_mask_maskLoads (io mo : String → Bool) (sf : String)
    (d : Nat) (s : List (String × Option String)) (w ml : List String) :
    (renderLoop io mo sf d false s w ml).2.1 = ml := by
  cases s with
  | nil => rfl
  | cons a rest =>
    obtain ⟨ip, mp⟩ := a
    cases hio : io ip <;> simp [renderLoop, hio]

theorem renderLoop_no_mask_congr (io mo : String → Bool) (sf : String)
    (d : Nat) (s₁ s₂ : List (String × Option String)) (w ml : List String)
    (h : s₁.map Prod.fst = s₂.map Prod.fst) :
    renderLoop io mo sf d false s₁ w ml = renderLoop io mo sf d false s₂ w ml := by
  cases s₁ with
  | nil =>
    cases s₂ with
    | nil => rfl
    | cons b bs => simp at h
  | cons a as =>
    cases s₂ with
    | nil => simp at h
    | cons b bs =>
      obtain ⟨ip, mp⟩ := a
      obtain ⟨ip2, mp2⟩ := b
      simp only [List.map_cons, List.cons.injEq] at h
      cases hio : io ip <;> simp [renderLoop, hio, ← h.1]

theorem map_fst_zip_take {α β : Type} : ∀ (l : List α) (m : List β),
    (l.zip m).map Prod.fst = l.take m.length := by
  intro l
  induction l with
  | nil => intro m; simp
  | cons a as ih =>
    intro m
    cases m with
    | nil => simp
    | cons b bs => simp [ih bs]

/- A call whose mask list starts with the `"-1"` sentinel, reduced:
   `masks_provided` is decided false by that first element alone. -/
theorem plot_sentinel_eq {α β : Type} (io mo : String → Bool) (sf : String)
    (images : List String) (segs : List α) (scores : Option (List β))
    (rest : List (Option String)) (d : Nat) :
    plot_segmentation_images io mo sf images segs scores
        (some (some "-1" :: rest)) d =
      (let scores' : List Unit :=
        match scores with
        | none => images.map fun _ => ()
        | some l => l.map fun _ => ()
      let samples :=
        ((images.zip (some "-1" :: rest)).zip
          (scores'.zip (segs.map fun _ => ()))).map Prod.fst
      let r := renderLoop io mo sf d false samples [] []
      ⟨true, r.1, r.2.1, r.2.2⟩) := rfl

/-- C9: whether ground-truth masks are used is decided solely by the
first element of a caller-supplied `mask_paths`, compared against the
sentinel `"-1"`: when the first element is `"-1"`, no mask file is ever
opened, and the call's outcome is entirely independent of the remaining
mask entries (any same-length tail gives the same result), even when
those are valid mask paths. -/
theorem c9_first_element_decides_masks {α β : Type}
    (imageOk maskOk : String → Bool) (savefolder : String)
    (image_paths : List String) (segmentations : List α)
    (anomaly_scores : Option (List β)) (save_depth : Nat)
    (rest rest' : List (Option String)) (hlen : rest.length = rest'.length) :
    (plot_segmentation_images imageOk maskOk savefolder image_paths
        segmentations anomaly_scores (some (some "-1" :: rest))
        save_depth).maskLoads = [] ∧
    plot_segmentation_images imageOk maskOk savefolder image_paths
        segmentations anomaly_scores (some (some "-1" :: rest)) save_depth =
      plot_segmentation_images imageOk maskOk savefolder image_paths
        segmentations anomaly_scores (some (some "-1" :: rest')) save_depth := by
  rw [plot_sentinel_eq, plot_sentinel_eq]
  have hfst : ∀ (mps : List (Option String)) (scores' segs' : List Unit),
      ((((image_paths.zip mps).zip (scores'.zip segs')).map Prod.fst).map
        Prod.fst) =
      (image_paths.take mps.length).take (scores'.zip segs').length := by
    intro mps scores' segs'
    rw [map_fst_zip_take, List.map_take, map_fst_zip_take]
  constructor
  · exact renderLoop_no_mask_maskLoads _ _ _ _ _ _ _
  · have hr := renderLoop_no_mask_congr imageOk maskOk savefolder save_depth
      (((image_paths.zip (some "-1" :: rest)).zip
        ((match anomaly_scores with
          | none => image_paths.map fun _ => ()
          | some l => l.map fun _ => ()).zip
          (segmentations.map fun _ => ()))).map Prod.fst)
      (((image_paths.zip (some "-1" :: rest')).zip
        ((match anomaly_scores with
          | none => image_paths.map fun _ => ()
          | some l => l.map fun _ => ()).zip
          (segmentations.map fun _ => ()))).map Prod.fst)
      [] [] (by
        rw [hfst, hfst]
        simp [hlen])
    simp only [hr]

/-- C9 witness: with the sentinel first and a valid later mask path, no
mask is opened and replacing that later path changes nothing. -/
theorem c9_first_element_decides_masks_witness :
    ([some "m"] : List (Option String)).length =
      ([none] : List (Option String)).length ∧
    ((plot_segmentation_images (fun _ => true) (fun _ => true) "out" ["x"] [()]
        (none : Option (List Unit)) (some [some "-1", some "m"]) 4).maskLoads =
      [] ∧
    plot_segmentation_images (fun _ => true) (fun _ => true) "out" ["x"] [()]
        (none : Option (List Unit)) (some [some "-1", some "m"]) 4 =
      plot_segmentation_images (fun _ => true) (fun _ => true) "out" ["x"] [()]
        (none : Option (List Unit)) (some [some "-1", none]) 4) :=
  ⟨rfl, c9_first_element_decides_masks (fun _ => true) (fun _ => true) "out"
    ["x"] [()] (none : Option (List Unit)) 4 [some "m"] [none] rfl⟩

theorem zip_getD {α β : Type} (da : α) (db : β) : ∀ (l : List α) (m : List β)
    (j : Nat), j < l.length → j < m.length →
    (l.zip m).getD j (da, db) = (l.getD j da, m.getD j db) := by
  intro l
  induction l with
  | nil => intro m j h; exact absurd h (by simp)
  | cons a as ih =>
    intro m j h1 h2
    cases m with
    | nil => exact absurd h2 (by simp)
    | cons b bs =>
      cases j with
      | zero => rfl
      | succ k =>
        simp only [List.zip_cons_cons, List.getD_cons_succ]
        exact ih bs k (by simpa using h1) (by simpa using h2)

theorem take_zip_map_fst {α β γ : Type} (f : α → γ) : ∀ (l : List α)
    (m : List β) (i : Nat), i ≤ l.length → i ≤ m.length →
    ((l.zip m).take i).map (fun s => f s.1) = (l.take i).map f := by
  intro l
  induction l with
  | nil =>
    intro m i hi _
    have h0 : i = 0 := by simpa using hi
    subst h0
    rfl
  | cons a as ih =>
    intro m i hi hm
    cases m with
    | nil =>
      have h0 : i = 0 := by simpa using hm
      subst h0
      rfl
    | cons b bs =>
      cases i with
      | zero => rfl
      | succ k =>
        simp only [List.zip_cons_cons, List.take_succ_cons, List.map_cons]
        rw [ih bs k (by simpa using hi) (by simpa using hm)]

theorem take_zip_filterMap_snd {α β : Type} : ∀ (l : List α)
    (m : List (Option β)) (i : Nat), i ≤ l.length → i ≤ m.length →
    ((l.zip m).take i).filterMap Prod.snd = (m.take i).filterMap id := by
  intro l
  induction l with
  | nil =>
    intro m i hi _
    have h0 : i = 0 := by simpa using hi
    subst h0
    rfl
  | cons a as ih =>
    intro m i hi hm
    cases m with
    | nil =>
      have h0 : i = 0 := by simpa using hm
      subst h0
      rfl
    | cons b bs =>
      cases i with
      | zero => rfl
      | succ k =>
        simp only [List.zip_cons_cons, List.take_succ_cons, List.filterMap_cons]
        rw [ih bs k (by simpa using hi) (by simpa using hm)]
        cases b <;> rfl

/- One step of the render loop with masks provided, unfolded. -/
theorem renderLoop_abort (io mo : String → Bool) (sf : String) (d : Nat) :
    ∀ (s : List (String × Option String)) (i : Nat) (w ml : List String),
    i < s.length →
    (∀ j, j < i → io (s.getD j ("", none)).1 = true ∧
      ∀ mp, (s.getD j ("", none)).2 = some mp → mo mp = true) →
    io (s.getD i ("", none)).1 = false →
    renderLoop io mo sf d true s w ml =
      (w ++ (s.take i).map (fun t => savenameOf sf d t.1),
        ml ++ (s.take i).filterMap Prod.snd, some .ioError) := by
  intro s
  induction s with
  | nil => intro i w ml hi; exact absurd hi (by simp)
  | cons a rest ih =>
    intro i w ml hi hok hfail
    obtain ⟨ip, mp⟩ := a
    cases i with
    | zero =>
      simp only [List.getD_cons_zero] at hfail
      simp [renderLoop, hfail]
    | succ j =>
      obtain ⟨h0, hm0⟩ := hok 0 (Nat.succ_pos j)
      simp only [List.getD_cons_zero] at h0 hm0
      simp only [List.getD_cons_succ] at hfail
      cases mp with
      | some mpath =>
        have hmo : mo mpath = true := hm0 mpath rfl
        rw [renderLoop]
        simp only [h0, hmo, if_true]
        rw [ih j (w ++ [savenameOf sf d ip]) (ml ++ [mpath])
          (by simpa using hi)
          (fun k hk => by simpa using hok (k + 1) (Nat.succ_lt_succ hk))
          hfail]
        simp [List.take_succ_cons, List.filterMap_cons]
      | none =>
        rw [renderLoop]
        simp only [h0, if_true]
        rw [ih j (w ++ [savenameOf sf d ip]) ml
          (by simpa using hi)
          (fun k hk => by simpa using hok (k + 1) (Nat.succ_lt_succ hk))
          hfail]
        simp [List.take_succ_cons, List.filterMap_cons]

/- A call with a caller-supplied non-empty mask list, reduced:
   `masks_provided` is the first element's comparison with the sentinel. -/
theorem plot_masks_eq {α β : Type} (io mo : String → Bool) (sf : String)
    (images : List String) (segs : List α) (scores : Option (List β))
    (mh : Option String) (mt : List (Option String)) (d : Nat) :
    plot_segmentation_images io mo sf images segs scores (some (mh :: mt)) d =
      (let scores' : List Unit :=
        match scores with
        | none => images.map fun _ => ()
        | some l => l.map fun _ => ()
      let samples :=
        ((images.zip (mh :: mt)).zip (scores'.zip (segs.map fun _ => ()))).map
          Prod.fst
      let r := renderLoop io mo sf d (mh != some "-1") samples [] []
      ⟨true, r.1, r.2.1, r.2.2⟩) := rfl

/- The render loop under equal-length inputs with masks provided, when
   the image of sample `i` is the first unreadable file. -/
theorem plot_core_abort (io mo : String → Bool) (sf : String)
    (images : List String) (mps : List (Option String))
    (scores' segs' : List Unit) (d i : Nat)
    (hl1 : mps.length = images.length) (hl2 : segs'.length = images.length)
    (hl3 : scores'.length = images.length) (hi : i < images.length)
    (hok : ∀ j, j < i → io (images.getD j "") = true ∧
      ∀ mp, mps.getD j none = some mp → mo mp = true)
    (hfail : io (images.getD i "") = false) :
    renderLoop io mo sf d true
        (((images.zip mps).zip (scores'.zip segs')).map Prod.fst) [] [] =
      ((images.take i).map (savenameOf sf d), (mps.take i).filterMap id,
        some PyErr.ioError) := by
  have hsamples :
      ((images.zip mps).zip (scores'.zip segs')).map Prod.fst =
        images.zip mps := by
    apply List.map_fst_zip
    rw [List.length_zip, List.length_zip, hl1, hl2, hl3]
  rw [hsamples]
  have hget : ∀ j, j < images.length →
      (images.zip mps).getD j ("", none) = (images.getD j "", mps.getD j none) :=
    fun j hj => zip_getD "" none images mps j hj (by omega)
  rw [renderLoop_abort io mo sf d (images.zip mps) i [] []
    (by rw [List.length_zip]; omega)
    (fun j hj => by
      rw [hget j (lt_trans hj hi)]
      simpa using hok j hj)
    (by rw [hget i hi]; simpa using hfail)]
  rw [List.nil_append, List.nil_append,
    take_zip_map_fst (savenameOf sf d) images mps i (by omega) (by omega),
    take_zip_filterMap_snd images mps i (by omega) (by omega)]

/-- C7 counterexample: three samples with masks provided, the second
image unreadable — the call errors after writing only the first figure;
the third sample is never processed, refuting the fail-locally claim. -/
theorem c7_skip_and_continue_counterexample :
    plot_segmentation_images (fun p => p != "a/i2") (fun _ => true) "out"
      ["a/i1", "a/i2", "a/i3"] [(), (), ()] (none : Option (List Unit))
      (some [some "m1", some "m2", some "m3"]) 4 =
      ⟨true, ["out/a_i1"], ["m1"], some .ioError⟩ := rfl

/-- C7 amended: a rendering failure for one sample aborts the batch:
with masks provided, equal-length inputs and every sample before index
`i` readable, an unreadable image at `i` makes the call error after
writing exactly the figures of the first `i` samples — the failing
sample and every later one are not processed. -/
theorem c7_failure_aborts_batch {α β : Type} (imageOk maskOk : String → Bool)
    (savefolder : String) (images : List String) (mps : List (Option String))
    (segs : List α) (anomaly_scores : Option (List β)) (d i : Nat)
    (m0 : Option String) (hm0 : mps.head? = some m0) (hm0v : m0 ≠ some "-1")
    (hl1 : mps.length = images.length) (hl2 : segs.length = images.length)
    (hl3 : ∀ l, anomaly_scores = some l → l.length = images.length)
    (hi : i < images.length)
    (hok : ∀ j, j < i → imageOk (images.getD j "") = true ∧
      ∀ mp, mps.getD j none = some mp → maskOk mp = true)
    (hfail : imageOk (images.getD i "") = false) :
    plot_segmentation_images imageOk maskOk savefolder images segs
        anomaly_scores (some mps) d =
      ⟨true, (images.take i).map (savenameOf savefolder d),
        (mps.take i).filterMap id, some PyErr.ioError⟩ := by
  cases mps with
  | nil => simp at hm0
  | cons mh mt =>
    have hm : m0 = mh := by
      have := hm0
      simp only [List.head?_cons, Option.some.injEq] at this
      exact this.symm
    subst hm
    have hbp : (m0 != some "-1") = true := bne_iff_ne.mpr hm0v
    rw [plot_masks_eq]
    dsimp only
    rw [hbp]
    cases anomaly_scores with
    | none =>
      rw [plot_core_abort imageOk maskOk savefolder images (m0 :: mt)
        (images.map fun _ => ()) (segs.map fun _ => ()) d i hl1
        (by rw [List.length_map]; exact hl2) (by rw [List.length_map]) hi
        hok hfail]
    | some l =>
      rw [plot_core_abort imageOk maskOk savefolder images (m0 :: mt)
        (l.map fun _ => ()) (segs.map fun _ => ()) d i hl1
        (by rw [List.length_map]; exact hl2)
        (by rw [List.length_map]; exact hl3 l rfl) hi hok hfail]

/-- C7 amended witness: the three-sample scenario, through the theorem. -/
theorem c7_failure_aborts_batch_witness :
    (([some "m1", some "m2", some "m3"] : List (Option String)).head? =
      some (some "m1")) ∧
    ((some "m1" : Option String) ≠ some "-1") ∧
    ((1 : Nat) < (["a/i1", "a/i2", "a/i3"] : List String).length) ∧
    ((fun p => p != "a/i2") ((["a/i1", "a/i2", "a/i3"] : List String).getD 1 "") =
      false) ∧
    plot_segmentation_images (fun p => p != "a/i2") (fun _ => true) "out"
        ["a/i1", "a/i2", "a/i3"] [(), (), ()] (none : Option (List Unit))
        (some [some "m1", some "m2", some "m3"]) 4 =
      ⟨true, ((["a/i1", "a/i2", "a/i3"] : List String).take 1).map
          (savenameOf "out" 4),
        (([some "m1", some "m2", some "m3"] : List (Option String)).take
          1).filterMap id, some PyErr.ioError⟩ :=
  ⟨rfl, by decide, by decide, rfl,
    c7_failure_aborts_batch (fun p => p != "a/i2") (fun _ => true) "out"
      ["a/i1", "a/i2", "a/i3"] [some "m1", some "m2", some "m3"] [(), (), ()]
      (none : Option (List Unit)) 4 1 (some "m1") rfl (by decide) rfl
      (by decide) (fun l h => nomatch h) (by decide)
      (fun j hj => by
        interval_cases j
        exact ⟨rfl, fun mp _ => rfl⟩)
      rfl⟩

theorem except_bind_ok {ε α β : Type} (a : α) (f : α → Except ε β) :
    (Except.ok a : Except ε α) >>= f = f a := rfl

theorem except_bind_error {ε α β : Type} (e : ε) (f : α → Except ε β) :
    (Except.error e : Except ε α) >>= f = Except.error e := rfl

theorem except_pure_bind {ε α β : Type} (a : α) (f : α → Except ε β) :
    (pure a : Except ε α) >>= f = f a := rfl

/- `[x[i] for x in results]` succeeds on rectangular input and collects
   column `i`. -/
theorem colVals_ok (results : List (List ℚ)) (i : Nat)
    (h5 : ∀ row ∈ results, row.length = 5) (hi : i < 5) :
    colVals results i = .ok (results.map fun r => r.getD i 0) := by
  induction results with
  | nil => rfl
  | cons r rs ih =>
    have hr : r.length = 5 := h5 r (by simp)
    have hget : r.get? i = some (r.getD i 0) := by
      rw [List.get?_eq_getElem?, List.getElem?_eq_getElem (by omega),
        List.getD_eq_getElem r 0 (by omega)]
    simp only [colVals, List.mapM_cons, hget]
    have ih2 := ih (fun row hrow => h5 row (by simp [hrow]))
    simp only [colVals] at ih2
    rw [ih2]
    rfl

/- The `mean_metrics` loop on the default five column names: five fresh
   keys inserted in order. -/
theorem meansLoop_default (results : List (List ℚ))
    (h5 : ∀ row ∈ results, row.length = 5) :
    meansLoop results defaultColumnNames 0 [] = .ok
      [("Instance AUROC", npMean (results.map fun r => r.getD 0 0)),
       ("Full Pixel AUROC", npMean (results.map fun r => r.getD 1 0)),
       ("Full PRO", npMean (results.map fun r => r.getD 2 0)),
       ("Anomaly Pixel AUROC", npMean (results.map fun r => r.getD 3 0)),
       ("Anomaly PRO", npMean (results.map fun r => r.getD 4 0))] := by
  have h0 := colVals_ok results 0 h5 (by omega)
  have h1 := colVals_ok results 1 h5 (by omega)
  have h2 := colVals_ok results 2 h5 (by omega)
  have h3 := colVals_ok results 3 h5 (by omega)
  have h4 := colVals_ok results 4 h5 (by omega)
  simp [meansLoop, defaultColumnNames, h0, h1, h2, h3, h4, dictInsert,
    except_bind_ok]

/-- C6: when `row_names` is given with a length different from
`results`, `compute_and_store_final_results` fails on the assert before
the CSV file is opened: the call errors and no `results.csv` is
written. -/
theorem c6_row_names_mismatch_asserts (results : List (List ℚ))
    (rn : List String) (column_names : List String)
    (h : rn.length ≠ results.length) :
    compute_and_store_final_results results (some rn) column_names =
      .error .assertionError := by
  simp [compute_and_store_final_results, h, except_bind_error]

/-- C6 witness. -/
theorem c6_row_names_mismatch_asserts_witness :
    (["a"] : List String).length ≠ ([] : List (List ℚ)).length ∧
    compute_and_store_final_results [] (some ["a"]) defaultColumnNames =
      .error .assertionError :=
  ⟨by decide, c6_row_names_mismatch_asserts [] ["a"] defaultColumnNames
    (by decide)⟩

/-- C1: on a rectangular results matrix with at least one row and
exactly five columns (and, when given, as many row names as rows),
`compute_and_store_final_results` succeeds; the final row of the CSV it
writes is the column-wise arithmetic mean of the input rows, prefixed
with the literal `"Mean"` exactly when row names are given; and the
returned mapping has exactly five entries, one per default column name
in column order, keyed `"mean_" + column_name` and holding that
column's mean. -/
theorem c1_store_results_mean_row_and_mapping (results : List (List ℚ))
    (row_names : Option (List String)) (hr : 1 ≤ results.length)
    (h5 : ∀ row ∈ results, row.length = 5)
    (hrn : ∀ rn, row_names = some rn → rn.length = results.length) :
    ∃ rows : List (List Cell),
      compute_and_store_final_results results row_names defaultColumnNames =
        .ok (rows,
          [("mean_Instance AUROC", npMean (results.map fun r => r.getD 0 0)),
           ("mean_Full Pixel AUROC", npMean (results.map fun r => r.getD 1 0)),
           ("mean_Full PRO", npMean (results.map fun r => r.getD 2 0)),
           ("mean_Anomaly Pixel AUROC", npMean (results.map fun r => r.getD 3 0)),
           ("mean_Anomaly PRO", npMean (results.map fun r => r.getD 4 0))]) ∧
      rows.getLast? = some
        ((if row_names.isSome then [Cell.str "Mean"] else []) ++
          [Cell.num (npMean (results.map fun r => r.getD 0 0)),
           Cell.num (npMean (results.map fun r => r.getD 1 0)),
           Cell.num (npMean (results.map fun r => r.getD 2 0)),
           Cell.num (npMean (results.map fun r => r.getD 3 0)),
           Cell.num (npMean (results.map fun r => r.getD 4 0))]) ∧
      rows.length = results.length + 2 := by
  cases row_names with
  | none =>
    refine ⟨((defaultColumnNames.map Cell.str) ::
      (results.enum.map fun p => p.2.map Cell.num)) ++
      [[Cell.num (npMean (results.map fun r => r.getD 0 0)),
        Cell.num (npMean (results.map fun r => r.getD 1 0)),
        Cell.num (npMean (results.map fun r => r.getD 2 0)),
        Cell.num (npMean (results.map fun r => r.getD 3 0)),
        Cell.num (npMean (results.map fun r => r.getD 4 0))]], ?_, ?_, ?_⟩
    · simp only [compute_and_store_final_results, except_pure_bind,
        meansLoop_default results h5, except_bind_ok]
      rfl
    · rw [List.getLast?_concat]
      rfl
    · simp [List.length_append, List.length_map, List.enum_length]
  | some rn =>
    have hlen : rn.length = results.length := hrn rn rfl
    refine ⟨((Cell.str "Row Names" :: defaultColumnNames.map Cell.str) ::
      (results.enum.map fun p =>
        Cell.str ((rn.get? p.1).getD "") :: p.2.map Cell.num)) ++
      [Cell.str "Mean" ::
        [Cell.num (npMean (results.map fun r => r.getD 0 0)),
         Cell.num (npMean (results.map fun r => r.getD 1 0)),
         Cell.num (npMean (results.map fun r => r.getD 2 0)),
         Cell.num (npMean (results.map fun r => r.getD 3 0)),
         Cell.num (npMean (results.map fun r => r.getD 4 0))]], ?_, ?_, ?_⟩
    · simp only [compute_and_store_final_results, if_pos hlen, except_pure_bind,
        meansLoop_default results h5, except_bind_ok]
      rfl
    · rw [List.getLast?_concat]
      rfl
    · simp [List.length_append, List.length_map, List.enum_length]

/- The end-to-end example of the spec: two metric rows with row names. -/
def exampleResults : List (List ℚ) :=
  [[9/10, 8/10, 7/10, 85/100, 75/100], [95/100, 9/10, 8/10, 9/10, 85/100]]

def exampleRowNames : List String := ["cls_a", "cls_b"]

/-- C1 witness: the spec's end-to-end scenario, through the theorem. -/
theorem c1_store_results_mean_row_and_mapping_witness :
    (1 ≤ exampleResults.length) ∧
    (∀ row ∈ exampleResults, row.length = 5) ∧
    (∀ rn, some exampleRowNames = some rn →
      rn.length = exampleResults.length) ∧
    (∃ rows : List (List Cell),
      compute_and_store_final_results exampleResults (some exampleRowNames)
          defaultColumnNames =
        .ok (rows,
          [("mean_Instance AUROC",
            npMean (exampleResults.map fun r => r.getD 0 0)),
           ("mean_Full Pixel AUROC",
            npMean (exampleResults.map fun r => r.getD 1 0)),
           ("mean_Full PRO", npMean (exampleResults.map fun r => r.getD 2 0)),
           ("mean_Anomaly Pixel AUROC",
            npMean (exampleResults.map fun r => r.getD 3 0)),
           ("mean_Anomaly PRO",
            npMean (exampleResults.map fun r => r.getD 4 0))]) ∧
      rows.getLast? = some
        ((if (some exampleRowNames).isSome then [Cell.str "Mean"] else []) ++
          [Cell.num (npMean (exampleResults.map fun r => r.getD 0 0)),
           Cell.num (npMean (exampleResults.map fun r => r.getD 1 0)),
           Cell.num (npMean (exampleResults.map fun r => r.getD 2 0)),
           Cell.num (npMean (exampleResults.map fun r => r.getD 3 0)),
           Cell.num (npMean (exampleResults.map fun r => r.getD 4 0))]) ∧
      rows.length = exampleResults.length + 2) :=
  ⟨by decide, by decide, fun rn h => by cases h; rfl,
    c1_store_results_mean_row_and_mapping exampleResults (some exampleRowNames)
      (by decide) (by decide) (fun rn h => by cases h; rfl)⟩

/- Every bundle the factory loop built from allocation base `objBase`
   carries dataset allocation indices at or above `objBase`. -/
theorem buildBundles_mem_objId (n dp : String) (tvs : ℚ)
    (bs rs is nw : Nat) (aug : Bool) : ∀ (subs : List String) (objBase : Nat)
    (b : DataloaderBundle), b ∈ buildBundles n dp tvs bs rs is nw aug subs objBase →
    objBase ≤ b.train.dataset.objId ∧ objBase ≤ b.test.dataset.objId := by
  intro subs
  induction subs with
  | nil => intro objBase b hb; simp [buildBundles] at hb
  | cons sub rest ih =>
    intro objBase b hb
    simp only [buildBundles, List.mem_cons] at hb
    rcases hb with rfl | hb
    · exact ⟨le_refl _, Nat.le_succ _⟩
    · have := ih (objBase + 2) b hb
      omega

theorem buildBundles_length (n dp : String) (tvs : ℚ) (bs rs is nw : Nat)
    (aug : Bool) : ∀ (subs : List String) (objBase : Nat),
    (buildBundles n dp tvs bs rs is nw aug subs objBase).length = subs.length := by
  intro subs
  induction subs with
  | nil => intro objBase; rfl
  | cons sub rest ih => intro objBase; simp [buildBundles, ih (objBase + 2)]

theorem buildBundles_map_name (n dp : String) (tvs : ℚ) (bs rs is nw : Nat)
    (aug : Bool) : ∀ (subs : List String) (objBase : Nat),
    (buildBundles n dp tvs bs rs is nw aug subs objBase).map
        (fun b => b.train.name) =
      subs.map (fun s => some (n ++ "_" ++ s)) := by
  intro subs
  induction subs with
  | nil => intro objBase; rfl
  | cons sub rest ih => intro objBase; simp [buildBundles, ih (objBase + 2)]; rfl

theorem buildBundles_pairwise (n dp : String) (tvs : ℚ) (bs rs is nw : Nat)
    (aug : Bool) : ∀ (subs : List String) (objBase : Nat),
    List.Pairwise (fun b₁ b₂ =>
      b₁.train.dataset ≠ b₂.train.dataset ∧
      b₁.test.dataset ≠ b₂.test.dataset ∧
      b₁.train.dataset ≠ b₂.test.dataset ∧
      b₁.test.dataset ≠ b₂.train.dataset)
      (buildBundles n dp tvs bs rs is nw aug subs objBase) := by
  intro subs
  induction subs with
  | nil => intro objBase; exact List.Pairwise.nil
  | cons sub rest ih =>
    intro objBase
    refine List.Pairwise.cons ?_ (ih (objBase + 2))
    intro b2 hb2
    obtain ⟨h1, h2⟩ := buildBundles_mem_objId n dp tvs bs rs is nw aug rest
      (objBase + 2) b2 hb2
    refine ⟨fun he => ?_, fun he => ?_, fun he => ?_, fun he => ?_⟩
    · have h : objBase = b2.train.dataset.objId := congrArg MVTecDataset.objId he
      omega
    · have h : objBase + 1 = b2.test.dataset.objId :=
        congrArg MVTecDataset.objId he
      omega
    · have h : objBase = b2.test.dataset.objId := congrArg MVTecDataset.objId he
      omega
    · have h : objBase + 1 = b2.train.dataset.objId :=
        congrArg MVTecDataset.objId he
      omega

/-- C2: the factory `dataset` returns the tagged pair
`("get_dataloaders", get_dataloaders)`; invoking the closure yields
exactly one `{train, test}` bundle per subdataset name, in input order,
with the i-th train loader tagged `name + "_" + subdatasets[i]`, and no
two bundles share a dataset instance (each `MVTecDataset(...)` call is
a fresh allocation, so all allocation indices across bundles are
pairwise distinct). -/
theorem c2_factory_bundles (name data_path : String) (subdatasets : List String)
    (train_val_split : ℚ) (batch_size resize image_size num_workers : Nat)
    (augment : Bool) :
    (dataset name data_path subdatasets train_val_split batch_size resize
        image_size num_workers augment).1 = "get_dataloaders" ∧
    ((dataset name data_path subdatasets train_val_split batch_size resize
        image_size num_workers augment).2 ()).length = subdatasets.length ∧
    ((dataset name data_path subdatasets train_val_split batch_size resize
        image_size num_workers augment).2 ()).map (fun b => b.train.name) =
      subdatasets.map (fun s => some (name ++ "_" ++ s)) ∧
    List.Pairwise (fun b₁ b₂ =>
      b₁.train.dataset ≠ b₂.train.dataset ∧
      b₁.test.dataset ≠ b₂.test.dataset ∧
      b₁.train.dataset ≠ b₂.test.dataset ∧
      b₁.test.dataset ≠ b₂.train.dataset)
      ((dataset name data_path subdatasets train_val_split batch_size resize
        image_size num_workers augment).2 ()) :=
  ⟨rfl,
    buildBundles_length name data_path train_val_split batch_size resize
      image_size num_workers augment subdatasets 0,
    buildBundles_map_name name data_path train_val_split batch_size resize
      image_size num_workers augment subdatasets 0,
    buildBundles_pairwise name data_path train_val_split batch_size resize
      image_size num_workers augment subdatasets 0⟩

end SimpleDisNet
